import Mathlib

/-!
Verification of the USB Audio-Class descriptor definitions (desc-defs.c)
against their natural-language specification.

The C file is the data half of a generic binary-descriptor decoder: static
label tables, per-(descriptor-kind, protocol-generation) field schemas, a
registry of those schemas, and three special-case ("snowflake") rendering
functions.  Those parts are embedded here directly from the source.  The
generic decoding engine that walks the schemas (desc-dump.c) is not part of
the excerpt; the definitions for it below are modelled from the
specification and are marked as such.
-/

/-- Field type tags, mirroring `enum desc_type` usage in desc-defs.c.
The C tag DESC_NUMBER_POSTFIX is rendered here as DESC_NUMBER_SUFFIX. -/
inductive DescType
  | DESC_NUMBER
  | DESC_CONSTANT
  | DESC_BCD
  | DESC_STR_DESC_INDEX
  | DESC_TERMINAL_STR
  | DESC_BITMAP
  | DESC_BITMAP_STRINGS
  | DESC_NUMBER_STRINGS
  | DESC_NUMBER_SUFFIX
  | DESC_BMCONTROL_1
  | DESC_BMCONTROL_2
  | DESC_SNOWFLAKE
deriving DecidableEq

/-- Tags naming the three snowflake rendering functions of desc-defs.c.
The C source declares two distinct static functions that both carry the
name desc_snowflake_dump_uac1_as_interface_wformattag (one with
ARRAY_LEN-based range bounds, one with literal range bounds); they are
embedded below as two functions with distinct names. -/
inductive Snowflake
  | dump_uac2_clk_src_bmattr
  | dump_uac1_as_interface_wformattag
  | dump_uac2_as_interface_bmformats
deriving DecidableEq

/-- Array annotation of a schema entry: C `struct desc` member `.array`. -/
structure ArrayInfo where
  array : Bool := false
  bits : Bool := false
  length_field1 : Option String := none
  length_field2 : Option String := none
deriving DecidableEq

/-- Bitmap-with-strings table reference: C `struct desc` member
`.bitmap_strings`, holding a string table (a `none` entry stands for a NULL
gap left by the C designated initializers) and an element count. -/
structure BitmapStrings where
  strings : List (Option String) := []
  count : Nat := 0
deriving DecidableEq

/-- One schema entry: C `struct desc`.  The C member `.type` is named `ty`
here (`type` is reserved in Lean); the C member `.number_postfix` is named
`number_suffix`.  A NULL-terminated C label table becomes a plain list of
its labels. -/
structure Desc where
  field : String
  size : Nat := 0
  size_field : Option String := none
  ty : DescType
  array : ArrayInfo := {}
  bmcontrol : List String := []
  bitmap_strings : BitmapStrings := {}
  number_strings : List String := []
  number_suffix : String := ""
  snowflake : Option Snowflake := none
deriving DecidableEq

/-- USB Audio Device Class 1 Channel Names.  (Note: Order matters.) -/
def uac1_channel_names : List String :=
  ["Left Front (L)", "Right Front (R)", "Center Front (C)",
   "Low Frequency Enhancement (LFE)", "Left Surround (LS)",
   "Right Surround (RS)", "Left of Center (LC)", "Right of Center (RC)",
   "Surround (S)", "Side Left (SL)", "Side Right (SR)", "Top (T)"]

/-- USB Audio Device Class 2 Channel Names.  (Note: Order matters.) -/
def uac2_channel_names : List String :=
  ["Front Left (FL)", "Front Right (FR)", "Front Center (FC)",
   "Low Frequency Effects (LFE)", "Back Left (BL)", "Back Right (BR)",
   "Front Left of Center (FLC)", "Front Right of Center (FRC)",
   "Back Center (BC)", "Side Left (SL)", "Side Right (SR)",
   "Top Center (TC)", "Top Front Left (TFL)", "Top Front Center (TFC)",
   "Top Front Right (TFR)", "Top Back Left (TBL)", "Top Back Center (TBC)",
   "Top Back Right (TBR)", "Top Front Left of Center (TFLC)",
   "Top Front Right of Center (TFRC)", "Left Low Frequency Effects (LLFE)",
   "Right Low Frequency Effects (RLFE)", "Top Side Left (TSL)",
   "Top Side Right (TSR)", "Bottom Center (BC)",
   "Back Left of Center (BLC)", "Back Right of Center (BRC)"]

/-- Audio Control Interface Header bmControls; Human readable bit meanings. -/
def uac2_interface_header_bmcontrols : List String :=
  ["Latency control"]

/-- UAC1: 4.3.2 Class-Specific AC Interface Descriptor; Table 4-2. -/
def desc_audio_1_ac_header : List Desc :=
  [{ field := "bcdADC",        size := 2, ty := DescType.DESC_BCD },
   { field := "wTotalLength",  size := 2, ty := DescType.DESC_CONSTANT },
   { field := "bInCollection", size := 1, ty := DescType.DESC_CONSTANT },
   { field := "baInterfaceNr", size := 1, ty := DescType.DESC_NUMBER,
     array := { array := true } }]

/-- UAC2: 4.7.2 Class-Specific AC Interface Descriptor; Table 4-5. -/
def desc_audio_2_ac_header : List Desc :=
  [{ field := "bcdADC",       size := 2, ty := DescType.DESC_BCD },
   { field := "bCategory",    size := 1, ty := DescType.DESC_CONSTANT },
   { field := "wTotalLength", size := 2, ty := DescType.DESC_NUMBER },
   { field := "bmControls",   size := 1, ty := DescType.DESC_BMCONTROL_2,
     bmcontrol := uac2_interface_header_bmcontrols }]

/-- AudioControl Header descriptor definitions for the three protocols;
`none` stands for a NULL entry (UAC3 not implemented yet). -/
def desc_audio_ac_header : List (Option (List Desc)) :=
  [some desc_audio_1_ac_header, some desc_audio_2_ac_header, none]

/-- UAC2: 4.7.2.10 Effect Unit Descriptor; Table 4-15. -/
def desc_audio_2_ac_effect_unit : List Desc :=
  [{ field := "bUnitID",     size := 1, ty := DescType.DESC_NUMBER },
   { field := "wEffectType", size := 2, ty := DescType.DESC_CONSTANT },
   { field := "bSourceID",   size := 1, ty := DescType.DESC_CONSTANT },
   { field := "bmaControls", size := 4, ty := DescType.DESC_BITMAP,
     array := { array := true } },
   { field := "iEffects",    size := 1, ty := DescType.DESC_STR_DESC_INDEX }]

/-- Effect Unit descriptor definitions for the three protocols
(UAC1 not supported, UAC3 not implemented yet). -/
def desc_audio_ac_effect_unit : List (Option (List Desc)) :=
  [none, some desc_audio_2_ac_effect_unit, none]

/-- UAC2 Input Terminal bmControls; Human readable bit meanings. -/
def uac2_input_term_bmcontrols : List String :=
  ["Copy Protect", "Connector", "Overload", "Cluster", "Underflow",
   "Overflow"]

/-- UAC1: 4.3.2.1 Input Terminal Descriptor; Table 4-3. -/
def desc_audio_1_ac_input_terminal : List Desc :=
  [{ field := "bTerminalID",    size := 1, ty := DescType.DESC_NUMBER },
   { field := "wTerminalType",  size := 2, ty := DescType.DESC_TERMINAL_STR },
   { field := "bAssocTerminal", size := 1, ty := DescType.DESC_CONSTANT },
   { field := "bNrChannels",    size := 1, ty := DescType.DESC_NUMBER },
   { field := "wChannelConfig", size := 2, ty := DescType.DESC_BITMAP_STRINGS,
     bitmap_strings := { strings := uac1_channel_names.map some, count := 12 } },
   { field := "iChannelNames",  size := 1, ty := DescType.DESC_STR_DESC_INDEX },
   { field := "iTerminal",      size := 1, ty := DescType.DESC_STR_DESC_INDEX }]

/-- UAC2: 4.7.2.4 Input Terminal Descriptor; Table 4-9. -/
def desc_audio_2_ac_input_terminal : List Desc :=
  [{ field := "bTerminalID",     size := 1, ty := DescType.DESC_NUMBER },
   { field := "wTerminalType",   size := 2, ty := DescType.DESC_TERMINAL_STR },
   { field := "bAssocTerminal",  size := 1, ty := DescType.DESC_CONSTANT },
   { field := "bCSourceID",      size := 1, ty := DescType.DESC_CONSTANT },
   { field := "bNrChannels",     size := 1, ty := DescType.DESC_NUMBER },
   { field := "bmChannelConfig", size := 4, ty := DescType.DESC_BITMAP_STRINGS,
     bitmap_strings := { strings := uac2_channel_names.map some, count := 26 } },
   { field := "iChannelNames",   size := 1, ty := DescType.DESC_STR_DESC_INDEX },
   { field := "bmControls",      size := 2, ty := DescType.DESC_BMCONTROL_2,
     bmcontrol := uac2_input_term_bmcontrols },
   { field := "iTerminal",       size := 1, ty := DescType.DESC_STR_DESC_INDEX }]

/-- Input Terminal descriptor definitions for the three protocols. -/
def desc_audio_ac_input_terminal : List (Option (List Desc)) :=
  [some desc_audio_1_ac_input_terminal, some desc_audio_2_ac_input_terminal,
   none]

/-- UAC2 Output Terminal bmControls; Human readable bit meanings. -/
def uac2_output_term_bmcontrols : List String :=
  ["Copy Protect", "Connector", "Overload", "Underflow", "Overflow"]

/-- UAC1: 4.3.2.2 Output Terminal Descriptor; Table 4-4. -/
def desc_audio_1_ac_output_terminal : List Desc :=
  [{ field := "bTerminalID",    size := 1, ty := DescType.DESC_NUMBER },
   { field := "wTerminalType",  size := 2, ty := DescType.DESC_TERMINAL_STR },
   { field := "bAssocTerminal", size := 1, ty := DescType.DESC_NUMBER },
   { field := "bSourceID",      size := 1, ty := DescType.DESC_NUMBER },
   { field := "iTerminal",      size := 1, ty := DescType.DESC_STR_DESC_INDEX }]

/-- UAC2: 4.7.2.5 Output Terminal Descriptor; Table 4-10. -/
def desc_audio_2_ac_output_terminal : List Desc :=
  [{ field := "bTerminalID",    size := 1, ty := DescType.DESC_NUMBER },
   { field := "wTerminalType",  size := 2, ty := DescType.DESC_TERMINAL_STR },
   { field := "bAssocTerminal", size := 1, ty := DescType.DESC_NUMBER },
   { field := "bSourceID",      size := 1, ty := DescType.DESC_NUMBER },
   { field := "bCSourceID",     size := 1, ty := DescType.DESC_NUMBER },
   { field := "bmControls",     size := 2, ty := DescType.DESC_BMCONTROL_2,
     bmcontrol := uac2_output_term_bmcontrols },
   { field := "iTerminal",      size := 1, ty := DescType.DESC_STR_DESC_INDEX }]

/-- Output Terminal descriptor definitions for the three protocols. -/
def desc_audio_ac_output_terminal : List (Option (List Desc)) :=
  [some desc_audio_1_ac_output_terminal, some desc_audio_2_ac_output_terminal,
   none]

/-- UAC2 Mixer Unit bmControls; Human readable bit meanings. -/
def uac2_mixer_unit_bmcontrols : List String :=
  ["Cluster", "Underflow", "Overflow"]

/-- UAC1: 4.3.2.3 Mixer Unit Descriptor; Table 4-5. -/
def desc_audio_1_ac_mixer_unit : List Desc :=
  [{ field := "bUnitID",        size := 1, ty := DescType.DESC_NUMBER },
   { field := "bNrInPins",      size := 1, ty := DescType.DESC_NUMBER },
   { field := "baSourceID",     size := 1, ty := DescType.DESC_NUMBER,
     array := { array := true, length_field1 := some "bNrInPins" } },
   { field := "bNrChannels",    size := 1, ty := DescType.DESC_NUMBER },
   { field := "wChannelConfig", size := 2, ty := DescType.DESC_BITMAP_STRINGS,
     bitmap_strings := { strings := uac1_channel_names.map some, count := 12 } },
   { field := "iChannelNames",  size := 1, ty := DescType.DESC_STR_DESC_INDEX },
   { field := "bmControls",     size := 1, ty := DescType.DESC_BITMAP,
     array := { array := true, bits := true,
                length_field1 := some "bNrInPins",
                length_field2 := some "bNrChannels" } },
   { field := "iMixer",         size := 1, ty := DescType.DESC_STR_DESC_INDEX }]

/-- UAC2: 4.7.2.6 Mixer Unit Descriptor; Table 4-11. -/
def desc_audio_2_ac_mixer_unit : List Desc :=
  [{ field := "bUnitID",        size := 1, ty := DescType.DESC_NUMBER },
   { field := "bNrInPins",      size := 1, ty := DescType.DESC_NUMBER },
   { field := "baSourceID",     size := 1, ty := DescType.DESC_NUMBER,
     array := { array := true, length_field1 := some "bNrInPins" } },
   { field := "bNrChannels",    size := 1, ty := DescType.DESC_NUMBER },
   { field := "bmChannelConfig", size := 4, ty := DescType.DESC_BITMAP_STRINGS,
     bitmap_strings := { strings := uac2_channel_names.map some, count := 26 } },
   { field := "iChannelNames",  size := 1, ty := DescType.DESC_STR_DESC_INDEX },
   { field := "bmMixerControls", size := 1, ty := DescType.DESC_BITMAP,
     array := { array := true, bits := true,
                length_field1 := some "bNrInPins",
                length_field2 := some "bNrChannels" } },
   { field := "bmControls",     size := 1, ty := DescType.DESC_BMCONTROL_2,
     bmcontrol := uac2_mixer_unit_bmcontrols },
   { field := "iMixer",         size := 1, ty := DescType.DESC_STR_DESC_INDEX }]

/-- Mixer Unit descriptor definitions for the three protocols. -/
def desc_audio_ac_mixer_unit : List (Option (List Desc)) :=
  [some desc_audio_1_ac_mixer_unit, some desc_audio_2_ac_mixer_unit, none]

/-- Selector Unit bmControls; Human readable bit meanings. -/
def uac2_selector_unit_bmcontrols : List String :=
  ["Selector"]

/-- UAC1: 4.3.2.4 Selector Unit Descriptor; Table 4-6. -/
def desc_audio_1_ac_selector_unit : List Desc :=
  [{ field := "bUnitID",    size := 1, ty := DescType.DESC_NUMBER },
   { field := "bNrInPins",  size := 1, ty := DescType.DESC_NUMBER },
   { field := "baSourceID", size := 1, ty := DescType.DESC_NUMBER,
     array := { array := true, length_field1 := some "bNrInPins" } },
   { field := "iSelector",  size := 1, ty := DescType.DESC_STR_DESC_INDEX }]

/-- UAC2: 4.7.2.7 Selector Unit Descriptor; Table 4-12. -/
def desc_audio_2_ac_selector_unit : List Desc :=
  [{ field := "bUnitID",    size := 1, ty := DescType.DESC_NUMBER },
   { field := "bNrInPins",  size := 1, ty := DescType.DESC_NUMBER },
   { field := "baSourceID", size := 1, ty := DescType.DESC_NUMBER,
     array := { array := true, length_field1 := some "bNrInPins" } },
   { field := "bmControls", size := 1, ty := DescType.DESC_BMCONTROL_2,
     bmcontrol := uac2_selector_unit_bmcontrols },
   { field := "iSelector",  size := 1, ty := DescType.DESC_STR_DESC_INDEX }]

/-- Selector Unit descriptor definitions for the three protocols. -/
def desc_audio_ac_selector_unit : List (Option (List Desc)) :=
  [some desc_audio_1_ac_selector_unit, some desc_audio_2_ac_selector_unit,
   none]

/-- UAC1: 4.3.2.6 Processing Unit Descriptor; Table 4-8. -/
def desc_audio_1_ac_processing_unit : List Desc :=
  [{ field := "bUnitID",          size := 1, ty := DescType.DESC_NUMBER },
   { field := "wProcessType",     size := 2, ty := DescType.DESC_CONSTANT },
   { field := "bNrInPins",        size := 1, ty := DescType.DESC_NUMBER },
   { field := "baSourceID",       size := 1, ty := DescType.DESC_NUMBER,
     array := { array := true, length_field1 := some "bNrInPins" } },
   { field := "bNrChannels",      size := 1, ty := DescType.DESC_NUMBER },
   { field := "wChannelConfig",   size := 2, ty := DescType.DESC_BITMAP_STRINGS,
     bitmap_strings := { strings := uac1_channel_names.map some, count := 12 } },
   { field := "iChannelNames",    size := 1, ty := DescType.DESC_STR_DESC_INDEX },
   { field := "bControlSize",     size := 1, ty := DescType.DESC_NUMBER },
   { field := "bmControls",       size := 1, ty := DescType.DESC_BITMAP,
     array := { array := true, length_field1 := some "bControlSize" } },
   { field := "iProcessing",      size := 1, ty := DescType.DESC_STR_DESC_INDEX },
   { field := "Process-specific", size := 1, ty := DescType.DESC_BITMAP,
     array := { array := true } }]

/-- UAC2: 4.7.2.11 Processing Unit Descriptor; Table 4-20. -/
def desc_audio_2_ac_processing_unit : List Desc :=
  [{ field := "bUnitID",          size := 1, ty := DescType.DESC_NUMBER },
   { field := "wProcessType",     size := 2, ty := DescType.DESC_CONSTANT },
   { field := "bNrInPins",        size := 1, ty := DescType.DESC_NUMBER },
   { field := "baSourceID",       size := 1, ty := DescType.DESC_NUMBER,
     array := { array := true, length_field1 := some "bNrInPins" } },
   { field := "bNrChannels",      size := 1, ty := DescType.DESC_NUMBER },
   { field := "bmChannelConfig",  size := 4, ty := DescType.DESC_BITMAP_STRINGS,
     bitmap_strings := { strings := uac2_channel_names.map some, count := 26 } },
   { field := "iChannelNames",    size := 1, ty := DescType.DESC_STR_DESC_INDEX },
   { field := "bControlSize",     size := 1, ty := DescType.DESC_NUMBER },
   { field := "bmControls",       size := 2, ty := DescType.DESC_BITMAP,
     array := { array := true, length_field1 := some "bControlSize" } },
   { field := "iProcessing",      size := 1, ty := DescType.DESC_STR_DESC_INDEX },
   { field := "Process-specific", size := 1, ty := DescType.DESC_BITMAP,
     array := { array := true } }]

/-- Processing Unit descriptor definitions for the three protocols. -/
def desc_audio_ac_processing_unit : List (Option (List Desc)) :=
  [some desc_audio_1_ac_processing_unit, some desc_audio_2_ac_processing_unit,
   none]

/-- Audio Control Feature Unit bmControls; Human readable bit meanings. -/
def uac_feature_unit_bmcontrols : List String :=
  ["Mute", "Volume", "Bass", "Mid", "Treble", "Graphic Equalizer",
   "Automatic Gain", "Delay", "Bass Boost", "Loudness", "Input gain",
   "Input gain pad", "Phase inverter"]

/-- UAC1: 4.3.2.5 Feature Unit Descriptor; Table 4-7. -/
def desc_audio_1_ac_feature_unit : List Desc :=
  [{ field := "bUnitID",      size := 1, ty := DescType.DESC_NUMBER },
   { field := "bSourceID",    size := 1, ty := DescType.DESC_CONSTANT },
   { field := "bControlSize", size := 1, ty := DescType.DESC_NUMBER },
   { field := "bmaControls",  size_field := some "bControlSize",
     ty := DescType.DESC_BMCONTROL_1,
     bmcontrol := uac_feature_unit_bmcontrols, array := { array := true } },
   { field := "iFeature",     size := 1, ty := DescType.DESC_STR_DESC_INDEX }]

/-- UAC2: 4.7.2.8 Feature Unit Descriptor; Table 4-13. -/
def desc_audio_2_ac_feature_unit : List Desc :=
  [{ field := "bUnitID",     size := 1, ty := DescType.DESC_NUMBER },
   { field := "bSourceID",   size := 1, ty := DescType.DESC_CONSTANT },
   { field := "bmaControls", size := 4, ty := DescType.DESC_BMCONTROL_2,
     bmcontrol := uac_feature_unit_bmcontrols, array := { array := true } },
   { field := "iFeature",    size := 1, ty := DescType.DESC_STR_DESC_INDEX }]

/-- Feature Unit descriptor definitions for the three protocols. -/
def desc_audio_ac_feature_unit : List (Option (List Desc)) :=
  [some desc_audio_1_ac_feature_unit, some desc_audio_2_ac_feature_unit, none]

/-- UAC2 Extension Unit bmControls; Human readable bit meanings. -/
def uac2_extension_unit_bmcontrols : List String :=
  ["Enable", "Cluster", "Underflow", "Overflow"]

/-- UAC1: 4.3.2.7 Extension Unit Descriptor; Table 4-15. -/
def desc_audio_1_ac_extension_unit : List Desc :=
  [{ field := "bUnitID",        size := 1, ty := DescType.DESC_NUMBER },
   { field := "wExtensionCode", size := 2, ty := DescType.DESC_CONSTANT },
   { field := "bNrInPins",      size := 1, ty := DescType.DESC_NUMBER },
   { field := "baSourceID",     size := 1, ty := DescType.DESC_NUMBER,
     array := { array := true, length_field1 := some "bNrInPins" } },
   { field := "bNrChannels",    size := 1, ty := DescType.DESC_NUMBER },
   { field := "wChannelConfig", size := 2, ty := DescType.DESC_BITMAP_STRINGS,
     bitmap_strings := { strings := uac1_channel_names.map some, count := 12 } },
   { field := "iChannelNames",  size := 1, ty := DescType.DESC_STR_DESC_INDEX },
   { field := "bControlSize",   size := 1, ty := DescType.DESC_NUMBER },
   { field := "bmControls",     size := 1, ty := DescType.DESC_BITMAP,
     array := { array := true, length_field1 := some "bControlSize" } },
   { field := "iExtension",     size := 1, ty := DescType.DESC_STR_DESC_INDEX }]

/-- UAC2: 4.7.2.12 Extension Unit Descriptor; Table 4-24. -/
def desc_audio_2_ac_extension_unit : List Desc :=
  [{ field := "bUnitID",         size := 1, ty := DescType.DESC_NUMBER },
   { field := "wExtensionCode",  size := 2, ty := DescType.DESC_CONSTANT },
   { field := "bNrInPins",       size := 1, ty := DescType.DESC_NUMBER },
   { field := "baSourceID",      size := 1, ty := DescType.DESC_NUMBER,
     array := { array := true, length_field1 := some "bNrInPins" } },
   { field := "bNrChannels",     size := 1, ty := DescType.DESC_NUMBER },
   { field := "bmChannelConfig", size := 4, ty := DescType.DESC_BITMAP_STRINGS,
     bitmap_strings := { strings := uac2_channel_names.map some, count := 26 } },
   { field := "iChannelNames",   size := 1, ty := DescType.DESC_STR_DESC_INDEX },
   { field := "bmControls",      size := 1, ty := DescType.DESC_BMCONTROL_2,
     bmcontrol := uac2_extension_unit_bmcontrols },
   { field := "iExtension",      size := 1, ty := DescType.DESC_STR_DESC_INDEX }]

/-- Extension Unit descriptor definitions for the three protocols. -/
def desc_audio_ac_extension_unit : List (Option (List Desc)) :=
  [some desc_audio_1_ac_extension_unit, some desc_audio_2_ac_extension_unit,
   none]

/-- UAC2 Clock Source bmControls; Human readable bit meanings. -/
def uac2_clock_source_bmcontrols : List String :=
  ["Clock Frequency", "Clock Validity"]

/-- UAC2 clock source attribute labels indexed by bits 0 and 1 of
bmAttributes. -/
def uac2_clk_src_bmattr : List String :=
  ["External", "Internal fixed", "Internal variable", "Internal programmable"]

/-- UAC3 clock source attribute labels; entry 3 is the synchronization
qualifier appended by the UAC2 snowflake renderer when bit 2 is set. -/
def uac3_clk_src_bmattr : List String :=
  ["External", "Internal", "(asynchronous)", "(synchronized to SOF)"]

/-- Special rendering function for UAC2 clock source bmAttributes: the exact
text the C printf produces, C desc_snowflake_dump_uac2_clk_src_bmattr.
The C indexes uac2_clk_src_bmattr with value AND 3 (here value mod 4) and
tests bit 2 with value AND 4. -/
def desc_snowflake_dump_uac2_clk_src_bmattr (value : Nat) : String :=
  " " ++ uac2_clk_src_bmattr.getD (value % 4) "" ++ " clock " ++
    (if value.testBit 2 then uac3_clk_src_bmattr.getD 3 "" else "") ++ "\n"

/-- UAC2: 4.7.2.1 Clock Source Descriptor; Table 4-6. -/
def desc_audio_2_ac_clock_source : List Desc :=
  [{ field := "bClockID",       size := 1, ty := DescType.DESC_CONSTANT },
   { field := "bmAttributes",   size := 1, ty := DescType.DESC_SNOWFLAKE,
     snowflake := some Snowflake.dump_uac2_clk_src_bmattr },
   { field := "bmControls",     size := 1, ty := DescType.DESC_BMCONTROL_2,
     bmcontrol := uac2_clock_source_bmcontrols },
   { field := "bAssocTerminal", size := 1, ty := DescType.DESC_CONSTANT },
   { field := "iClockSource",   size := 1, ty := DescType.DESC_STR_DESC_INDEX }]

/-- Clock Source descriptor definitions for the three protocols
(UAC1 not supported, UAC3 not implemented yet). -/
def desc_audio_ac_clock_source : List (Option (List Desc)) :=
  [none, some desc_audio_2_ac_clock_source, none]

/-- UAC2 Clock Selector bmControls; Human readable bit meanings. -/
def uac2_clock_selector_bmcontrols : List String :=
  ["Clock Selector"]

/-- UAC2: 4.7.2.2 Clock Selector Descriptor; Table 4-7. -/
def desc_audio_2_ac_clock_selector : List Desc :=
  [{ field := "bClockID",       size := 1, ty := DescType.DESC_NUMBER },
   { field := "bNrInPins",      size := 1, ty := DescType.DESC_NUMBER },
   { field := "baCSourceID",    size := 1, ty := DescType.DESC_NUMBER,
     array := { array := true, length_field1 := some "bNrInPins" } },
   { field := "bmControls",     size := 1, ty := DescType.DESC_BMCONTROL_2,
     bmcontrol := uac2_clock_selector_bmcontrols },
   { field := "iClockSelector", size := 1, ty := DescType.DESC_STR_DESC_INDEX }]

/-- Clock Selector descriptor definitions for the three protocols
(UAC1 not supported, UAC3 not implemented yet). -/
def desc_audio_ac_clock_selector : List (Option (List Desc)) :=
  [none, some desc_audio_2_ac_clock_selector, none]

/-- UAC2 Clock Multiplier bmControls; Human readable bit meanings. -/
def uac2_clock_multiplier_bmcontrols : List String :=
  ["Clock Numerator", "Clock Denominator"]

/-- UAC2: 4.7.2.3 Clock Multiplier Descriptor; Table 4-8. -/
def desc_audio_2_ac_clock_multiplier : List Desc :=
  [{ field := "bClockID",         size := 1, ty := DescType.DESC_CONSTANT },
   { field := "bCSourceID",       size := 1, ty := DescType.DESC_NUMBER },
   { field := "bmControls",       size := 1, ty := DescType.DESC_BMCONTROL_2,
     bmcontrol := uac2_clock_multiplier_bmcontrols },
   { field := "iClockMultiplier", size := 1,
     ty := DescType.DESC_STR_DESC_INDEX }]

/-- Clock Multiplier descriptor definitions for the three protocols
(UAC1 not supported, UAC3 not implemented yet). -/
def desc_audio_ac_clock_multiplier : List (Option (List Desc)) :=
  [none, some desc_audio_2_ac_clock_multiplier, none]

/-- UAC2: 4.7.2.9 Sampling Rate Converter Descriptor; Table 4-14. -/
def desc_audio_2_ac_sample_rate_converter : List Desc :=
  [{ field := "bUnitID",       size := 1, ty := DescType.DESC_CONSTANT },
   { field := "bSourceID",     size := 1, ty := DescType.DESC_CONSTANT },
   { field := "bCSourceInID",  size := 1, ty := DescType.DESC_CONSTANT },
   { field := "bCSourceOutID", size := 1, ty := DescType.DESC_CONSTANT },
   { field := "iSRC",          size := 1, ty := DescType.DESC_STR_DESC_INDEX }]

/-- Sample Rate Converter descriptor definitions for the three protocols
(UAC1 not supported, UAC3 not implemented yet). -/
def desc_audio_ac_sample_rate_converter : List (Option (List Desc)) :=
  [none, some desc_audio_2_ac_sample_rate_converter, none]

/-- UAC2 AudioStreaming Interface bmControls; Human readable bit meanings. -/
def uac2_as_interface_bmcontrols : List String :=
  ["Active Alternate Setting", "Valid Alternate Setting"]

/-- wFormatTag hex tag for format type I (C macro UAC_FORMAT_TYPE_I). -/
def UAC_FORMAT_TYPE_I : Nat := 0x0

/-- wFormatTag hex tag for format type II (C macro UAC_FORMAT_TYPE_II). -/
def UAC_FORMAT_TYPE_II : Nat := 0x1

/-- wFormatTag hex tag for format type III (C macro UAC_FORMAT_TYPE_III). -/
def UAC_FORMAT_TYPE_III : Nat := 0x2

/-- Format type I codes; Human-readable values. -/
def audio_data_format_type_i : List String :=
  ["TYPE_I_UNDEFINED", "PCM", "PCM8", "IEEE_FLOAT", "ALAW", "MULAW"]

/-- Format type II codes; Human-readable values. -/
def audio_data_format_type_ii : List String :=
  ["TYPE_II_UNDEFINED", "MPEG", "AC-3"]

/-- Format type III codes; Human-readable values. -/
def audio_data_format_type_iii : List String :=
  ["TYPE_III_UNDEFINED", "IEC1937_AC-3", "IEC1937_MPEG-1_Layer1",
   "IEC1937_MPEG-Layer2/3/NOEXT", "IEC1937_MPEG-2_EXT",
   "IEC1937_MPEG-2_Layer1_LS", "IEC1937_MPEG-2_Layer2/3_LS"]

/-- Special rendering function for UAC1 AS interface wFormatTag: the FIRST
C function of that name, whose range bounds come from ARRAY_LEN.  It
selects the format string printed for the value.  A C array access
`table[i]` is rendered as `table.get? i`, so a `none` result marks an
access one past the end of the table (the C array index is out of bounds
there, an undefined read); `some s` means the C code prints the string s.
Values matched by no branch keep the initial "undefined". -/
def desc_snowflake_dump_uac1_as_interface_wformattag_generic
    (value : Nat) : Option String :=
  if value ≤ (UAC_FORMAT_TYPE_I <<< 12) + audio_data_format_type_i.length then
    audio_data_format_type_i.get? value
  else if (UAC_FORMAT_TYPE_II <<< 12) ≤ value ∧
      value ≤ (UAC_FORMAT_TYPE_II <<< 12) + audio_data_format_type_ii.length then
    audio_data_format_type_ii.get? (value % 4096)
  else if (UAC_FORMAT_TYPE_III <<< 12) ≤ value ∧
      value ≤ (UAC_FORMAT_TYPE_III <<< 12) + audio_data_format_type_iii.length then
    audio_data_format_type_iii.get? (value % 4096)
  else some "undefined"

/-- Special rendering function for UAC1 AS interface wFormatTag: the SECOND
C function of that name, with literal range bounds (value at most 5, or in
0x1000..0x1002, or in 0x2000..0x2006).  Same rendering convention as the
generic variant; with these bounds every access is in range. -/
def desc_snowflake_dump_uac1_as_interface_wformattag_literal
    (value : Nat) : Option String :=
  if value ≤ 5 then
    audio_data_format_type_i.get? value
  else if 0x1000 ≤ value ∧ value ≤ 0x1002 then
    audio_data_format_type_ii.get? (value % 4096)
  else if 0x2000 ≤ value ∧ value ≤ 0x2006 then
    audio_data_format_type_iii.get? (value % 4096)
  else some "undefined"

/-- Special rendering function for UAC2 AS interface bmFormats: the list of
type-I format names whose bit (0..4) is set, C
desc_snowflake_dump_uac2_as_interface_bmformats. -/
def desc_snowflake_dump_uac2_as_interface_bmformats (value : Nat) :
    List String :=
  (List.range 5).filterMap fun i =>
    if (value >>> i) % 2 = 1 then audio_data_format_type_i.get? (i + 1)
    else none

/-- UAC1: 4.5.2 Class-Specific AS Interface Descriptor; Table 4-19. -/
def desc_audio_1_as_interface : List Desc :=
  [{ field := "bTerminalLink", size := 1, ty := DescType.DESC_CONSTANT },
   { field := "bDelay",        size := 1, ty := DescType.DESC_NUMBER_SUFFIX,
     number_suffix := " frames" },
   { field := "wFormatTag",    size := 2, ty := DescType.DESC_SNOWFLAKE,
     snowflake := some Snowflake.dump_uac1_as_interface_wformattag }]

/-- UAC2: 4.9.2 Class-Specific AS Interface Descriptor; Table 4-27. -/
def desc_audio_2_as_interface : List Desc :=
  [{ field := "bTerminalLink",   size := 1, ty := DescType.DESC_NUMBER },
   { field := "bmControls",      size := 1, ty := DescType.DESC_BMCONTROL_2,
     bmcontrol := uac2_as_interface_bmcontrols },
   { field := "bFormatType",     size := 1, ty := DescType.DESC_CONSTANT },
   { field := "bmFormats",       size := 4, ty := DescType.DESC_SNOWFLAKE,
     snowflake := some Snowflake.dump_uac2_as_interface_bmformats },
   { field := "bNrChannels",     size := 1, ty := DescType.DESC_NUMBER },
   { field := "bmChannelConfig", size := 4, ty := DescType.DESC_BITMAP_STRINGS,
     bitmap_strings := { strings := uac2_channel_names.map some, count := 26 } },
   { field := "iChannelNames",   size := 1, ty := DescType.DESC_STR_DESC_INDEX }]

/-- AS Interface descriptor definitions for the three protocols. -/
def desc_audio_as_interface : List (Option (List Desc)) :=
  [some desc_audio_1_as_interface, some desc_audio_2_as_interface, none]

/-- UAC1 AS endpoint bmAttributes labels; indices 3..6 are NULL gaps in the
C designated initializer. -/
def uac1_as_endpoint_bmattributes : List (Option String) :=
  [some "Sampling Frequency", some "Pitch", some "Audio Data Format Control",
   none, none, none, none, some "MaxPacketsOnly"]

/-- UAC2 AS endpoint bmAttributes labels; only index 7 is populated. -/
def uac2_as_endpoint_bmattributes : List (Option String) :=
  [none, none, none, none, none, none, none, some "MaxPacketsOnly"]

/-- UAC2 AS Isochronous Audio Data Endpoint bmControls labels. -/
def uac2_as_isochronous_audio_data_endpoint_bmcontrols : List String :=
  ["Pitch", "Data Overrun", "Data Underrun"]

/-- UAC AS Isochronous Audio Data Endpoint bLockDelayUnits labels. -/
def uac_as_isochronous_audio_data_endpoint_blockdelayunits : List String :=
  ["Undefined", "Milliseconds", "Decoded PCM samples"]

/-- UAC1: 4.6.1.2 Class-Specific AS Isochronous Audio Data Endpoint
Descriptor; Table 4-21. -/
def desc_audio_1_as_isochronous_audio_data_endpoint : List Desc :=
  [{ field := "bmAttributes",    size := 1, ty := DescType.DESC_BITMAP_STRINGS,
     bitmap_strings := { strings := uac1_as_endpoint_bmattributes, count := 8 } },
   { field := "bLockDelayUnits", size := 1, ty := DescType.DESC_NUMBER_STRINGS,
     number_strings := uac_as_isochronous_audio_data_endpoint_blockdelayunits },
   { field := "wLockDelay",      size := 2, ty := DescType.DESC_NUMBER }]

/-- UAC2: 4.10.1.2 Class-Specific AS Isochronous Audio Data Endpoint
Descriptor; Table 4-34. -/
def desc_audio_2_as_isochronous_audio_data_endpoint : List Desc :=
  [{ field := "bmAttributes",    size := 1, ty := DescType.DESC_BITMAP_STRINGS,
     bitmap_strings := { strings := uac2_as_endpoint_bmattributes, count := 8 } },
   { field := "bmControls",      size := 1, ty := DescType.DESC_BMCONTROL_2,
     bmcontrol := uac2_as_isochronous_audio_data_endpoint_bmcontrols },
   { field := "bLockDelayUnits", size := 1, ty := DescType.DESC_NUMBER_STRINGS,
     number_strings := uac_as_isochronous_audio_data_endpoint_blockdelayunits },
   { field := "wLockDelay",      size := 2, ty := DescType.DESC_NUMBER }]

/-- AS Isochronous Audio Data Endpoint descriptor definitions for the three
protocols. -/
def desc_audio_as_isochronous_audio_data_endpoint : List (Option (List Desc)) :=
  [some desc_audio_1_as_isochronous_audio_data_endpoint,
   some desc_audio_2_as_isochronous_audio_data_endpoint, none]

/-- Descriptor kinds, one per registry array of desc-defs.c. -/
inductive DescKind
  | ac_header
  | effect_unit
  | input_terminal
  | output_terminal
  | mixer_unit
  | selector_unit
  | processing_unit
  | feature_unit
  | extension_unit
  | clock_source
  | clock_selector
  | clock_multiplier
  | sample_rate_converter
  | as_interface
  | as_isochronous_audio_data_endpoint
deriving DecidableEq

/-- The Schema Registry: each kind's per-generation array of optional
schemas (index 0 is UAC1, 1 is UAC2, 2 is UAC3). -/
def registry : DescKind → List (Option (List Desc))
  | DescKind.ac_header => desc_audio_ac_header
  | DescKind.effect_unit => desc_audio_ac_effect_unit
  | DescKind.input_terminal => desc_audio_ac_input_terminal
  | DescKind.output_terminal => desc_audio_ac_output_terminal
  | DescKind.mixer_unit => desc_audio_ac_mixer_unit
  | DescKind.selector_unit => desc_audio_ac_selector_unit
  | DescKind.processing_unit => desc_audio_ac_processing_unit
  | DescKind.feature_unit => desc_audio_ac_feature_unit
  | DescKind.extension_unit => desc_audio_ac_extension_unit
  | DescKind.clock_source => desc_audio_ac_clock_source
  | DescKind.clock_selector => desc_audio_ac_clock_selector
  | DescKind.clock_multiplier => desc_audio_ac_clock_multiplier
  | DescKind.sample_rate_converter => desc_audio_ac_sample_rate_converter
  | DescKind.as_interface => desc_audio_as_interface
  | DescKind.as_isochronous_audio_data_endpoint =>
      desc_audio_as_isochronous_audio_data_endpoint

/-- Registry lookup: the schema for a descriptor kind at a protocol
generation, or `none` (the distinguished unsupported result) when the
registry entry is absent or the generation index is out of range. -/
def lookup (k : DescKind) (gen : Nat) : Option (List Desc) :=
  (registry k).getD gen none

/-- Modelled from the spec: the decoder error taxonomy of the field-decoder
engine (desc-dump.c, absent from the excerpt).  `UnsupportedCombination` is
the registry's `none` result, returned before decoding starts, so the only
error raised during a decode is a buffer underrun. -/
inductive DecodeError
  | bufferUnderrun
deriving DecidableEq

/-- Modelled from the spec: the Decode Context's append-only mapping from
field name to decoded integer value (the engine of desc-dump.c is absent
from the excerpt). -/
abbrev Ctx := List (String × Nat)

/-- Modelled from the spec: first-match lookup in the Decode Context. -/
def lookupCtx : Ctx → String → Option Nat
  | [], _ => none
  | (k, v) :: rest, f => if k = f then some v else lookupCtx rest f

/-- Modelled from the spec: a little-endian unsigned integer from a list of
bytes, least significant byte first. -/
def leVal : List Nat → Nat
  | [] => 0
  | b :: rest => b % 256 + 256 * leVal rest

/-- Modelled from the spec: read `w` bytes at offset `off` of the buffer as
an unsigned little-endian integer; `none` when insufficient bytes remain
(the engine must never read past the buffer end). -/
def readLE (buf : List Nat) (off w : Nat) : Option Nat :=
  if off + w ≤ buf.length then some (leVal ((buf.drop off).take w))
  else none

/-- Modelled from the spec: the effective byte width of a field, either the
literal size or the previously decoded value named by size_field (its
presence in the Context is guaranteed by the earlier-reference invariant,
not re-checked per decode; an absent name defaults to 0). -/
def effWidth (d : Desc) (ctx : Ctx) : Nat :=
  match d.size_field with
  | some f => (lookupCtx ctx f).getD 0
  | none => d.size

/-- Modelled from the spec: the resolved repetition count of a field.
Scalar fields repeat once; an array repeats per length_field1's decoded
value, or per the product of length_field1 and length_field2 in bits mode
(one control-bit group per input-pin-per-channel pair); an array with no
length field fills the remainder of the buffer, one repetition per
effective byte width. -/
def repCount (d : Desc) (ctx : Ctx) (remaining w : Nat) : Nat :=
  if d.array.array then
    match d.array.length_field1, d.array.length_field2 with
    | some f1, some f2 => (lookupCtx ctx f1).getD 0 * (lookupCtx ctx f2).getD 0
    | some f1, none => (lookupCtx ctx f1).getD 0
    | none, _ => remaining / w
  else 1

/-- Modelled from the spec: read `n` repetitions of `w` bytes each starting
at `off`, returning the decoded values and the offset one past the last
byte read, or `none` on a buffer underrun. -/
def readArray (buf : List Nat) (off w : Nat) : Nat → Option (List Nat × Nat)
  | 0 => some ([], off)
  | n + 1 =>
    match readLE buf off w with
    | none => none
    | some v =>
      match readArray buf (off + w) w n with
      | none => none
      | some (vs, off2) => some (v :: vs, off2)

/-- Modelled from the spec: the field-decoder engine (desc-dump.c, absent
from the excerpt).  Processes fields strictly in schema order in a single
forward pass; for each field it resolves the effective width and the
repetition count, reads the repetitions little-endian, records the first
decoded value under the field's name in the Context, and fails with
`bufferUnderrun` when a read would pass the buffer end, producing no
partial record. -/
def decodeFields : List Desc → List Nat → Nat → Ctx →
    Except DecodeError (List (String × List Nat) × Nat)
  | [], _, off, _ => Except.ok ([], off)
  | d :: rest, buf, off, ctx =>
    match readArray buf off (effWidth d ctx)
        (repCount d ctx (buf.length - off) (effWidth d ctx)) with
    | none => Except.error DecodeError.bufferUnderrun
    | some (vs, off2) =>
      match decodeFields rest buf off2 (ctx ++ [(d.field, vs.headD 0)]) with
      | Except.error e => Except.error e
      | Except.ok (recs, offEnd) => Except.ok ((d.field, vs) :: recs, offEnd)

/-- Modelled from the spec: decode a whole descriptor buffer against a
schema, from offset 0 with an empty Context. -/
def decode (s : List Desc) (buf : List Nat) :
    Except DecodeError (List (String × List Nat) × Nat) :=
  decodeFields s buf 0 []

/-- Modelled from the spec: CONTROL_BITS_1 interpretation (UAC1
convention) — one bit per control; a set bit means the control is present,
rendered as the list of present control names. -/
def bmcontrol1_interp (table : List String) (value : Nat) : List String :=
  table.enum.filterMap fun p =>
    if value.testBit p.1 then some p.2 else none

/-- Modelled from the spec: a CONTROL_BITS_2 access level, decoded from one
two-bit group (UAC2 convention). -/
inductive Control2
  | notPresent
  | readOnly
  | invalid
  | readWrite
deriving DecidableEq

/-- Modelled from the spec: the access level encoded by one two-bit group
(00 not present, 01 read-only, 10 reserved or invalid, 11 read-write). -/
def control2_of_bits (b : Nat) : Control2 :=
  match b with
  | 0 => Control2.notPresent
  | 1 => Control2.readOnly
  | 2 => Control2.invalid
  | _ => Control2.readWrite

/-- Modelled from the spec: CONTROL_BITS_2 interpretation — two bits per
control, the i-th control's access level taken from bits 2i and 2i+1 of
the value, paired with its name from the label table. -/
def bmcontrol2_interp (table : List String) (value : Nat) :
    List (String × Control2) :=
  table.enum.map fun p => (p.2, control2_of_bits ((value >>> (2 * p.1)) % 4))

/-- The field names referenced by a schema entry via size_field,
length_field1, or length_field2. -/
def fieldRefs (d : Desc) : List String :=
  d.size_field.toList ++ d.array.length_field1.toList ++
    d.array.length_field2.toList

/-- Check that every reference of every entry names a field seen strictly
earlier in the schema, threading the list of already-seen field names. -/
def earlierRefsOk : List String → List Desc → Bool
  | _, [] => true
  | seen, d :: rest =>
    (fieldRefs d).all (fun r => seen.contains r) &&
      earlierRefsOk (seen ++ [d.field]) rest

/-- A schema is well formed when every size or length reference names a
strictly earlier field (no forward and no self references). -/
def schemaWellFormed (s : List Desc) : Bool :=
  earlierRefsOk [] s

/-- A successful little-endian read never passes the buffer end. -/
theorem readLE_bound {buf : List Nat} {off w v : Nat}
    (h : readLE buf off w = some v) : off + w ≤ buf.length := by
  by_cases hc : off + w ≤ buf.length
  · exact hc
  · simp [readLE, hc] at h

/-- A successful repetition read leaves the cursor within the buffer. -/
theorem readArray_bound {buf : List Nat} {w : Nat} :
    ∀ {n off vs off2}, off ≤ buf.length →
      readArray buf off w n = some (vs, off2) → off2 ≤ buf.length := by
  intro n
  induction n with
  | zero =>
    intro off vs off2 h hr
    simp [readArray] at hr
    omega
  | succ n ih =>
    intro off vs off2 h hr
    rw [readArray] at hr
    split at hr
    · exact absurd hr (by simp)
    · rename_i v hle
      split at hr
      · exact absurd hr (by simp)
      · rename_i p vs1 o2 hra
        simp at hr
        obtain ⟨-, rfl⟩ := hr
        exact ih (readLE_bound hle) hra

/-- A successful decode leaves the final cursor within the buffer. -/
theorem decodeFields_bound :
    ∀ (s : List Desc) (buf : List Nat) (off : Nat) (ctx : Ctx)
      (r : List (String × List Nat)) (off2 : Nat),
      off ≤ buf.length → decodeFields s buf off ctx = Except.ok (r, off2) →
      off2 ≤ buf.length := by
  intro s
  induction s with
  | nil =>
    intro buf off ctx r off2 h hd
    simp [decodeFields] at hd
    omega
  | cons d rest ih =>
    intro buf off ctx r off2 h hd
    rw [decodeFields] at hd
    split at hd
    · exact absurd hd (by simp)
    · rename_i p vs o2 hra
      split at hd
      · exact absurd hd (by simp)
      · rename_i q recs offEnd hrec
        simp at hd
        obtain ⟨-, rfl⟩ := hd
        exact ih buf o2 _ recs offEnd (readArray_bound h hra) hrec

/-- The bmMixerControls entry of the UAC2 Mixer Unit schema (bits-mode
array over bNrInPins and bNrChannels). -/
def uac2_mixer_unit_bmMixerControls : Desc :=
  { field := "bmMixerControls", size := 1, ty := DescType.DESC_BITMAP,
    array := { array := true, bits := true,
               length_field1 := some "bNrInPins",
               length_field2 := some "bNrChannels" } }

/-- The bmaControls entry of the UAC1 Feature Unit schema (width taken
from the earlier-decoded bControlSize). -/
def uac1_feature_unit_bmaControls : Desc :=
  { field := "bmaControls", size_field := some "bControlSize",
    ty := DescType.DESC_BMCONTROL_1,
    bmcontrol := uac_feature_unit_bmcontrols, array := { array := true } }

/-- Claim C1, counterexample: index 3 of the UAC2 clock-source attribute
table is "Internal programmable", not "Internal variable" (which is index
2), so bmAttributes equal to 3 does not render as "Internal variable
clock". -/
theorem C1_clk_src_bmattr_counterexample :
    uac2_clk_src_bmattr.get? 3 = some "Internal programmable"
    ∧ uac2_clk_src_bmattr.get? 3 ≠ some "Internal variable"
    ∧ desc_snowflake_dump_uac2_clk_src_bmattr 3 ≠
        " Internal variable clock \n" :=
  ⟨rfl, by decide, by decide⟩

/-- Claim C1, amended: decoding the UAC2 Clock Source descriptor bytes
[bClockID=0x01, bmAttributes=0x03, bmControls=0x01, bAssocTerminal=0x00,
iClockSource=0x00] yields bmAttributes 3, rendered "Internal programmable
clock" (bits 0 and 1 select table index 3; bit 2 clear appends no SOF
qualifier), and bmControls 1, whose CONTROL_BITS_2 reading has Clock
Frequency read-only (present) and Clock Validity not present. -/
theorem C1_clk_src_decode_amended :
    decode desc_audio_2_ac_clock_source [1, 3, 1, 0, 0] =
      Except.ok ([("bClockID", [1]), ("bmAttributes", [3]),
                  ("bmControls", [1]), ("bAssocTerminal", [0]),
                  ("iClockSource", [0])], 5)
    ∧ desc_snowflake_dump_uac2_clk_src_bmattr 3 =
        " Internal programmable clock \n"
    ∧ bmcontrol2_interp uac2_clock_source_bmcontrols 1 =
        [("Clock Frequency", Control2.readOnly),
         ("Clock Validity", Control2.notPresent)] :=
  ⟨rfl, rfl, by decide⟩

/-- Claim C2: the two UAC1 wFormatTag decoders diverge at each boundary
value equal to a table's length offset (6, 0x1003, 0x2007): there the
generic-range variant reads one entry past its table (result none in this
embedding) while the literal-range variant renders "undefined". -/
theorem C2_wformattag_variants_diverge :
    desc_snowflake_dump_uac1_as_interface_wformattag_generic 6 ≠
      desc_snowflake_dump_uac1_as_interface_wformattag_literal 6
    ∧ desc_snowflake_dump_uac1_as_interface_wformattag_generic 0x1003 ≠
      desc_snowflake_dump_uac1_as_interface_wformattag_literal 0x1003
    ∧ desc_snowflake_dump_uac1_as_interface_wformattag_generic 0x2007 ≠
      desc_snowflake_dump_uac1_as_interface_wformattag_literal 0x2007 :=
  ⟨by decide, by decide, by decide⟩

/-- Claim C3, bug evaluation: the generic-range wFormatTag decoder indexes
audio_data_format_type_i at 6 although the table has exactly 6 entries
(valid indices 0..5) — an out-of-bounds access, `none` in this embedding —
and likewise one past the end at 0x1003 and 0x2007, while the
literal-range decoder degrades to "undefined" at the same inputs. -/
theorem C3_generic_wformattag_oob_eval :
    audio_data_format_type_i.length = 6
    ∧ desc_snowflake_dump_uac1_as_interface_wformattag_generic 6 = none
    ∧ desc_snowflake_dump_uac1_as_interface_wformattag_generic 0x1003 = none
    ∧ desc_snowflake_dump_uac1_as_interface_wformattag_generic 0x2007 = none
    ∧ desc_snowflake_dump_uac1_as_interface_wformattag_literal 6 =
        some "undefined" :=
  ⟨rfl, by decide, by decide, by decide, by decide⟩

/-- Claim C4: every (kind, generation) pair absent from the Schema
Registry — UAC3 (generation index 2) for every kind in this data, and UAC1
(generation index 0) for Clock Source, Clock Selector, Clock Multiplier,
and Sample Rate Converter — makes lookup return the distinguished
unsupported result, never a schema. -/
theorem C4_registry_absent_pairs :
    (∀ k : DescKind, lookup k 2 = none)
    ∧ lookup DescKind.clock_source 0 = none
    ∧ lookup DescKind.clock_selector 0 = none
    ∧ lookup DescKind.clock_multiplier 0 = none
    ∧ lookup DescKind.sample_rate_converter 0 = none := by
  refine ⟨?_, rfl, rfl, rfl, rfl⟩
  intro k
  cases k <;> rfl

/-- Claim C5: for the UAC2 Mixer Unit, when bNrInPins decodes to 2 and
bNrChannels to 3, the bits-mode bmMixerControls array resolves to
repetition count 6 whatever the remaining length and width arguments, and
a full decode of an 18-byte descriptor reads exactly the 6 bytes at
offsets 10..15 for that field. -/
theorem C5_mixer_unit_bits_repetition :
    desc_audio_2_ac_mixer_unit.get? 6 = some uac2_mixer_unit_bmMixerControls
    ∧ (∀ (ctx : Ctx) (rem w : Nat),
        lookupCtx ctx "bNrInPins" = some 2 →
        lookupCtx ctx "bNrChannels" = some 3 →
        repCount uac2_mixer_unit_bmMixerControls ctx rem w = 6)
    ∧ decode desc_audio_2_ac_mixer_unit
        [1, 2, 5, 6, 3, 0, 0, 0, 0, 0, 9, 10, 11, 12, 13, 14, 0, 0] =
      Except.ok ([("bUnitID", [1]), ("bNrInPins", [2]), ("baSourceID", [5, 6]),
                  ("bNrChannels", [3]), ("bmChannelConfig", [0]),
                  ("iChannelNames", [0]),
                  ("bmMixerControls", [9, 10, 11, 12, 13, 14]),
                  ("bmControls", [0]), ("iMixer", [0])], 18)
    ∧ readArray [1, 2, 5, 6, 3, 0, 0, 0, 0, 0, 9, 10, 11, 12, 13, 14, 0, 0]
        10 1 6 = some ([9, 10, 11, 12, 13, 14], 16) := by
  refine ⟨rfl, ?_, rfl, rfl⟩
  intro ctx rem w h1 h2
  simp [repCount, uac2_mixer_unit_bmMixerControls, h1, h2]

/-- Witness for claim C5 at a concrete context holding bNrInPins 2 and
bNrChannels 3. -/
theorem C5_mixer_unit_bits_repetition_witness :
    repCount uac2_mixer_unit_bmMixerControls
      [("bNrInPins", 2), ("bNrChannels", 3)] 0 1 = 6 :=
  C5_mixer_unit_bits_repetition.2.1 [("bNrInPins", 2), ("bNrChannels", 3)] 0 1
    (by decide) (by decide)

/-- Claim C6: for the UAC1 Feature Unit with bControlSize 2 and controls
bytes [0x03, 0x00], the bmaControls width is the earlier-decoded
bControlSize, the decode of the 6-byte descriptor records one repetition
of value 3 for bmaControls (bytes at offsets 3..4, two bytes), and the
CONTROL_BITS_1 reading of 3 lists exactly Mute and Volume as present. -/
theorem C6_feature_unit_bmacontrols :
    desc_audio_1_ac_feature_unit.get? 3 = some uac1_feature_unit_bmaControls
    ∧ (∀ ctx : Ctx, lookupCtx ctx "bControlSize" = some 2 →
        effWidth uac1_feature_unit_bmaControls ctx = 2)
    ∧ decode desc_audio_1_ac_feature_unit [7, 8, 2, 3, 0, 0] =
        Except.ok ([("bUnitID", [7]), ("bSourceID", [8]),
                    ("bControlSize", [2]), ("bmaControls", [3]),
                    ("iFeature", [0])], 6)
    ∧ readArray [7, 8, 2, 3, 0, 0] 3 2 1 = some ([3], 5)
    ∧ bmcontrol1_interp uac_feature_unit_bmcontrols 3 = ["Mute", "Volume"] := by
  refine ⟨rfl, ?_, rfl, rfl, by decide⟩
  intro ctx h
  simp [effWidth, uac1_feature_unit_bmaControls, h]

/-- Witness for claim C6 at a concrete context holding bControlSize 2. -/
theorem C6_feature_unit_bmacontrols_witness :
    effWidth uac1_feature_unit_bmaControls [("bControlSize", 2)] = 2 :=
  C6_feature_unit_bmacontrols.2.1 [("bControlSize", 2)] (by decide)

/-- Claim C7: the literal-range UAC1 AS Interface wFormatTag decoder
renders 0x0001 as "PCM" and 0x2002 as "IEC1937_MPEG-1_Layer1", the
type-III table entry at the low 12 bits (which equal 2). -/
theorem C7_wformattag_literal_renders :
    desc_snowflake_dump_uac1_as_interface_wformattag_literal 0x0001 =
      some "PCM"
    ∧ desc_snowflake_dump_uac1_as_interface_wformattag_literal 0x2002 =
        some "IEC1937_MPEG-1_Layer1"
    ∧ audio_data_format_type_iii.get? (0x2002 % 4096) =
        some "IEC1937_MPEG-1_Layer1" :=
  ⟨by decide, by decide, by decide⟩

/-- Claim C8: in every schema of the registry, each size_field,
length_field1, or length_field2 reference names a field that appears
strictly earlier in the same schema — no forward and no self references. -/
theorem C8_schema_refs_earlier :
    ∀ k : DescKind,
      ((registry k).all fun os =>
        match os with
        | none => true
        | some s => schemaWellFormed s) = true := by
  intro k
  cases k <;> rfl

/-- Claim C9: a successful decode never moves the cursor past the buffer
end (every read is bounds-checked), the only decode-time error is
bufferUnderrun, and decoding the UAC2 Clock Source schema over any buffer
shorter than its required 5 bytes fails with bufferUnderrun, returning no
partial record. -/
theorem C9_buffer_underrun_safety :
    (∀ (s : List Desc) (buf : List Nat) (off : Nat) (ctx : Ctx)
        (r : List (String × List Nat)) (off2 : Nat),
        off ≤ buf.length → decodeFields s buf off ctx = Except.ok (r, off2) →
        off2 ≤ buf.length)
    ∧ (∀ (s : List Desc) (buf : List Nat) (e : DecodeError),
        decode s buf = Except.error e → e = DecodeError.bufferUnderrun)
    ∧ (∀ buf : List Nat, buf.length < 5 →
        decode desc_audio_2_ac_clock_source buf =
          Except.error DecodeError.bufferUnderrun) := by
  refine ⟨decodeFields_bound, ?_, ?_⟩
  · intro s buf e _
    cases e
    rfl
  · intro buf h
    match buf, h with
    | [], _ => rfl
    | [a], _ => rfl
    | [a, b], _ => rfl
    | [a, b, c], _ => rfl
    | [a, b, c, d], _ => rfl
    | a :: b :: c :: d :: e :: rest, h => ?_
    simp only [List.length_cons] at h
    omega

/-- Witness for claim C9: the cursor bound at an empty schema over a
one-byte buffer, and the underrun on a concrete three-byte buffer. -/
theorem C9_buffer_underrun_safety_witness :
    (0 : Nat) ≤ 1
    ∧ decode desc_audio_2_ac_clock_source [1, 2, 3] =
        Except.error DecodeError.bufferUnderrun :=
  ⟨C9_buffer_underrun_safety.1 [] [1] 0 [] [] 0 (by decide) rfl,
   C9_buffer_underrun_safety.2.2 [1, 2, 3] (by decide)⟩

/-- Claim C10: the Schema Registry entry for the Effect Unit at UAC1
(generation index 0) is absent, so lookup returns the unsupported result. -/
theorem C10_effect_unit_uac1_absent :
    lookup DescKind.effect_unit 0 = none
    ∧ desc_audio_ac_effect_unit.get? 0 = some none :=
  ⟨rfl, rfl⟩
